import Mathlib

/-!
# Verification of the Nigerian Tax Calculator engine

A shallow embedding of the tax-computation code of the
`Nigerian-Tax-Calculator` repository, together with proofs of the
behavioural properties its specification states.

Monetary amounts are modelled as rationals (`ℚ`); the source's decimal
literals such as `0.07` become the exact rationals `7/100`.  Breakdown
strings are modelled structurally: each pushed line becomes a `BLine`
value carrying the numbers the source interpolates into the string.
-/

set_option autoImplicit false

/-- Tax year selector, `"2025" | "2026"` in the source. -/
inductive TaxYear : Type
  | y2025
  | y2026
deriving DecidableEq, Repr

/-- The `UserType` union of the source: `"salary" | "freelancer" | "both" | "crypto"`. -/
inductive UserType : Type
  | salary
  | freelancer
  | both
  | crypto
deriving DecidableEq, Repr

/-- The `CryptoTaxMethod` union of the source: `"cgt" | "pit"`. -/
inductive CryptoTaxMethod : Type
  | cgt
  | pit
deriving DecidableEq, Repr

/-- One line pushed onto the `breakdown` array, modelled structurally:
each constructor records the numbers the source interpolates into the
corresponding template string. -/
inductive BLine : Type
  | belowThreshold (income : ℚ)
  | thresholdLine (threshold : ℚ)
  | band (amount : ℚ) (rate : ℚ) (bandTax : ℚ)
  | flatCgt (amount : ℚ) (tax : ℚ)
deriving DecidableEq, Repr

/-- The result record returned by the tax computation:
`{ tax, relief, taxableIncome, breakdown }`. -/
structure TaxResult : Type where
  tax : ℚ
  relief : ℚ
  taxableIncome : ℚ
  breakdown : List BLine
deriving DecidableEq, Repr

/-- One band entry `{ limit, rate }`; `limit = none` models the source's
`Infinity` limit on the final band. -/
structure Band : Type where
  limit : Option ℚ
  rate : ℚ
deriving DecidableEq, Repr

/-- The 2025 band table of `calculateTax`. -/
def bands2025 : List Band :=
  [⟨some 300000, 7/100⟩, ⟨some 300000, 11/100⟩, ⟨some 500000, 15/100⟩,
   ⟨some 500000, 19/100⟩, ⟨some 1600000, 21/100⟩, ⟨none, 24/100⟩]

/-- The 2026 band table of `calculateTax` (applied after the ₦800,000
threshold). -/
def bands2026 : List Band :=
  [⟨some 2200000, 15/100⟩, ⟨some 9000000, 18/100⟩, ⟨some 13000000, 21/100⟩,
   ⟨some 25000000, 23/100⟩, ⟨none, 25/100⟩]

/-- `Math.min(remaining, band.limit)`, where `limit = none` is the
source's `Infinity` (so the minimum is `remaining` itself). -/
def bandAmount (lim : Option ℚ) (remaining : ℚ) : ℚ :=
  match lim with
  | none => remaining
  | some l => min remaining l

/-- The band-consumption loop shared by both regimes of `calculateTax`:
`for (const band of bands) { if (remaining <= 0) break; const amount =
Math.min(remaining, band.limit); const bandTax = amount * band.rate;
tax += bandTax; remaining -= amount; breakdown.push(...); }`.
Returns the accumulated tax and the pushed breakdown lines. -/
def runBands : List Band → ℚ → ℚ × List BLine
  | [], _ => (0, [])
  | b :: bs, remaining =>
    if remaining ≤ 0 then (0, [])
    else
      let amount := bandAmount b.limit remaining
      let bandTax := amount * b.rate
      let rest := runBands bs (remaining - amount)
      (bandTax + rest.1, BLine.band amount b.rate bandTax :: rest.2)

/-- The new 2026 tax-free threshold constant. -/
def taxFreeThreshold : ℚ := 800000

/-- `calculateTax(annualIncome, year)` from the source.  The 2026 branch
applies the ₦800,000 threshold (with a below-threshold short circuit
checked against the function's income argument); the 2025 branch applies
the Consolidated Relief Allowance and the 2025 PAYE bands. -/
def calculateTax (annualIncome : ℚ) (year : TaxYear) : TaxResult :=
  match year with
  | TaxYear.y2026 =>
      let relief : ℚ := 0
      let taxableIncome := max (annualIncome - taxFreeThreshold) 0
      if annualIncome ≤ taxFreeThreshold then
        ⟨0, 0, 0, [BLine.belowThreshold annualIncome]⟩
      else
        let r := runBands bands2026 taxableIncome
        ⟨r.1, relief, taxableIncome, BLine.thresholdLine taxFreeThreshold :: r.2⟩
  | TaxYear.y2025 =>
      let relief := max 200000 (annualIncome * (1/100)) + annualIncome * (20/100)
      let taxableIncome := max (annualIncome - relief) 0
      let r := runBands bands2025 taxableIncome
      ⟨r.1, relief, taxableIncome, r.2⟩

/-- `userType === "crypto" && cryptoTaxMethod === "cgt"` from the step-5
block of `CalculatorPage`. -/
def isCryptoCGT (u : UserType) (m : CryptoTaxMethod) : Bool :=
  match u, m with
  | UserType.crypto, CryptoTaxMethod.cgt => true
  | _, _ => false

/-- `taxYear === "2026" ? Math.min(rentAmount * 0.2, 500_000) : 0` from
the step-5 block of `CalculatorPage`. -/
def rentReliefFor (year : TaxYear) (rentAmount : ℚ) : ℚ :=
  match year with
  | TaxYear.y2026 => min (rentAmount * (20/100)) 500000
  | TaxYear.y2025 => 0

/-- The step-5 tax computation of `CalculatorPage`: rent relief is
subtracted from the yearly income (floored at 0), then the
crypto-CGT/2025 flat branch, the crypto-CGT/2026 branch, or the general
`calculateTax` call is taken. -/
def calculatorPageResult (yearlyIncome : ℚ) (taxYear : TaxYear)
    (userType : UserType) (method : CryptoTaxMethod) (rentAmount : ℚ) : TaxResult :=
  let rentRelief := rentReliefFor taxYear rentAmount
  let incomeAfterRentRelief := max (yearlyIncome - rentRelief) 0
  match isCryptoCGT userType method, taxYear with
  | true, TaxYear.y2025 =>
      ⟨yearlyIncome * (10/100), 0, yearlyIncome,
        [BLine.flatCgt yearlyIncome (yearlyIncome * (10/100))]⟩
  | true, TaxYear.y2026 => calculateTax incomeAfterRentRelief TaxYear.y2026
  | false, _ => calculateTax incomeAfterRentRelief taxYear

/-- The tax contribution a breakdown line reports. -/
def lineTax : BLine → ℚ
  | BLine.belowThreshold _ => 0
  | BLine.thresholdLine _ => 0
  | BLine.band _ _ bandTax => bandTax
  | BLine.flatCgt _ tax => tax

/-- A well-formed band entry: non-negative rate and a positive finite
limit when one is given.  Both tables of the source satisfy this. -/
def goodBand (b : Band) : Prop :=
  0 ≤ b.rate ∧ ∀ l, b.limit = some l → 0 < l

/-- The portion of a taxable base `t` falling into a band that starts at
cumulative ceiling `lo` and has width `w`. -/
def slicePortion (t lo w : ℚ) : ℚ := min (max (t - lo) 0) w

/-- Closed-form re-derivation of the 2025 band tax from the spec's band
table (ceilings 300k, 600k, 1.1M, 1.6M, 3.2M, above). -/
def legacyTaxClosed (t : ℚ) : ℚ :=
  (7/100) * slicePortion t 0 300000 + (11/100) * slicePortion t 300000 300000
    + (15/100) * slicePortion t 600000 500000 + (19/100) * slicePortion t 1100000 500000
    + (21/100) * slicePortion t 1600000 1600000 + (24/100) * max (t - 3200000) 0

/-- Closed-form re-derivation of the 2026 band tax from the spec's band
table (post-threshold ceilings 2.2M, 11.2M, 24.2M, 49.2M, above). -/
def reformTaxClosed (t : ℚ) : ℚ :=
  (15/100) * slicePortion t 0 2200000 + (18/100) * slicePortion t 2200000 9000000
    + (21/100) * slicePortion t 11200000 13000000
    + (23/100) * slicePortion t 24200000 25000000 + (25/100) * max (t - 49200000) 0

theorem bands2025_good : ∀ b ∈ bands2025, goodBand b := by
  intro b hb
  fin_cases hb <;> refine ⟨by norm_num, ?_⟩ <;> intro l hl <;>
    simp only [Option.some.injEq] at hl <;> first
    | (subst hl; norm_num)
    | exact absurd hl (by simp)

theorem bands2026_good : ∀ b ∈ bands2026, goodBand b := by
  intro b hb
  fin_cases hb <;> refine ⟨by norm_num, ?_⟩ <;> intro l hl <;>
    simp only [Option.some.injEq] at hl <;> first
    | (subst hl; norm_num)
    | exact absurd hl (by simp)

theorem runBands_nonpos (bs : List Band) (t : ℚ) (ht : t ≤ 0) :
    runBands bs t = (0, []) := by
  cases bs with
  | nil => rfl
  | cons b bs => simp [runBands, if_pos ht]

theorem bandAmount_pos (lim : Option ℚ) (t : ℚ) (ht : 0 < t)
    (hl : ∀ l, lim = some l → 0 < l) : 0 < bandAmount lim t := by
  cases lim with
  | none => exact ht
  | some l => exact lt_min ht (hl l rfl)

theorem bandAmount_mono (lim : Option ℚ) {t1 t2 : ℚ} (h : t1 ≤ t2) :
    bandAmount lim t1 ≤ bandAmount lim t2 := by
  cases lim with
  | none => exact h
  | some l => exact min_le_min h le_rfl

theorem sub_bandAmount_mono (lim : Option ℚ) {t1 t2 : ℚ} (h : t1 ≤ t2) :
    t1 - bandAmount lim t1 ≤ t2 - bandAmount lim t2 := by
  cases lim with
  | none => simp [bandAmount]
  | some l =>
      have e : ∀ t : ℚ, t - min t l = max (t - l) 0 := by
        intro t
        rcases le_total t l with hle | hle
        · rw [min_eq_left hle, max_eq_right (by linarith)]
          linarith
        · rw [min_eq_right hle, max_eq_left (by linarith)]
      simp only [bandAmount, e]
      exact max_le_max (by linarith) le_rfl

theorem runBands_fst_nonneg (bs : List Band) (hbs : ∀ b ∈ bs, goodBand b) :
    ∀ t : ℚ, 0 ≤ (runBands bs t).1 := by
  induction bs with
  | nil => intro t; simp [runBands]
  | cons b bs ih =>
      intro t
      by_cases ht : t ≤ 0
      · simp [runBands, if_pos ht]
      · obtain ⟨hr, hl⟩ := hbs b (List.mem_cons_self b bs)
        have hrec := ih (fun x hx => hbs x (List.mem_cons_of_mem b hx)) (t - bandAmount b.limit t)
        have hamt : 0 < bandAmount b.limit t := bandAmount_pos _ _ (by linarith) hl
        simp only [runBands, if_neg ht]
        have : 0 ≤ bandAmount b.limit t * b.rate := mul_nonneg (le_of_lt hamt) hr
        linarith

theorem runBands_fst_mono (bs : List Band) (hbs : ∀ b ∈ bs, goodBand b) :
    ∀ t1 t2 : ℚ, t1 ≤ t2 → (runBands bs t1).1 ≤ (runBands bs t2).1 := by
  induction bs with
  | nil => intro t1 t2 _; simp [runBands]
  | cons b bs ih =>
      intro t1 t2 h12
      by_cases h2 : t2 ≤ 0
      · rw [runBands_nonpos _ _ (le_trans h12 h2), runBands_nonpos _ _ h2]
      · by_cases h1 : t1 ≤ 0
        · rw [runBands_nonpos _ _ h1]
          exact runBands_fst_nonneg (b :: bs) hbs t2
        · obtain ⟨hr, _⟩ := hbs b (List.mem_cons_self b bs)
          have hbs2 : ∀ x ∈ bs, goodBand x := fun x hx => hbs x (List.mem_cons_of_mem b hx)
          have hamt : bandAmount b.limit t1 ≤ bandAmount b.limit t2 := bandAmount_mono _ h12
          have hsub := sub_bandAmount_mono b.limit h12
          have hrec := ih hbs2 _ _ hsub
          simp only [runBands, if_neg h1, if_neg h2]
          have : bandAmount b.limit t1 * b.rate ≤ bandAmount b.limit t2 * b.rate :=
            mul_le_mul_of_nonneg_right hamt hr
          linarith

theorem runBands_fst_eq_sum (bs : List Band) :
    ∀ t : ℚ, (runBands bs t).1 = ((runBands bs t).2.map lineTax).sum := by
  induction bs with
  | nil => intro t; simp [runBands]
  | cons b bs ih =>
      intro t
      by_cases ht : t ≤ 0
      · simp [runBands, if_pos ht]
      · simp only [runBands, if_neg ht, List.map_cons, List.sum_cons, lineTax]
        rw [ih]

theorem runBands_snd_bands (bs : List Band) (hbs : ∀ b ∈ bs, goodBand b) :
    ∀ t : ℚ, ∀ line ∈ (runBands bs t).2,
      ∃ a r, line = BLine.band a r (a * r) ∧ 0 < a := by
  induction bs with
  | nil => intro t line hline; simp [runBands] at hline
  | cons b bs ih =>
      intro t line hline
      by_cases ht : t ≤ 0
      · simp [runBands, if_pos ht] at hline
      · obtain ⟨_, hl⟩ := hbs b (List.mem_cons_self b bs)
        simp only [runBands, if_neg ht, List.mem_cons] at hline
        rcases hline with hline | hline
        · exact ⟨bandAmount b.limit t, b.rate, hline,
            bandAmount_pos _ _ (by linarith) hl⟩
        · exact ih (fun x hx => hbs x (List.mem_cons_of_mem b hx)) _ line hline

theorem runBands_cons_some_fst (l r : ℚ) (bs : List Band) (hl : 0 ≤ l) (t : ℚ) :
    (runBands (⟨some l, r⟩ :: bs) t).1
      = r * min (max t 0) l + (runBands bs (t - l)).1 := by
  by_cases ht : t ≤ 0
  · rw [runBands_nonpos _ _ ht, runBands_nonpos _ _ (by linarith)]
    rw [max_eq_right ht, min_eq_left hl]
    simp
  · simp only [runBands, if_neg ht, bandAmount]
    rw [max_eq_left (by linarith)]
    rcases le_total t l with hle | hle
    · rw [min_eq_left hle]
      rw [show t - t = (0:ℚ) by ring, runBands_nonpos bs 0 le_rfl,
        runBands_nonpos bs (t - l) (by linarith)]
      simp [mul_comm]
    · rw [min_eq_right hle]
      simp [mul_comm]

theorem runBands_cons_none_fst (r : ℚ) (bs : List Band) (t : ℚ) :
    (runBands (⟨none, r⟩ :: bs) t).1 = r * max t 0 := by
  by_cases ht : t ≤ 0
  · rw [runBands_nonpos _ _ ht, max_eq_right ht]
    simp
  · simp only [runBands, if_neg ht, bandAmount]
    rw [max_eq_left (by linarith)]
    rw [show t - t = (0:ℚ) by ring, runBands_nonpos bs 0 le_rfl]
    simp [mul_comm]

theorem runBands2025_fst_closed (t : ℚ) :
    (runBands bands2025 t).1 = legacyTaxClosed t := by
  simp only [bands2025]
  rw [runBands_cons_some_fst _ _ _ (by norm_num),
    runBands_cons_some_fst _ _ _ (by norm_num),
    runBands_cons_some_fst _ _ _ (by norm_num),
    runBands_cons_some_fst _ _ _ (by norm_num),
    runBands_cons_some_fst _ _ _ (by norm_num),
    runBands_cons_none_fst]
  simp only [legacyTaxClosed, slicePortion]
  ring_nf

theorem runBands2026_fst_closed (t : ℚ) :
    (runBands bands2026 t).1 = reformTaxClosed t := by
  simp only [bands2026]
  rw [runBands_cons_some_fst _ _ _ (by norm_num),
    runBands_cons_some_fst _ _ _ (by norm_num),
    runBands_cons_some_fst _ _ _ (by norm_num),
    runBands_cons_some_fst _ _ _ (by norm_num),
    runBands_cons_none_fst]
  simp only [reformTaxClosed, slicePortion]
  ring_nf

theorem calculateTax_y2026_tax (i : ℚ) :
    (calculateTax i TaxYear.y2026).tax = (runBands bands2026 (i - 800000)).1 := by
  by_cases h : i ≤ 800000
  · simp only [calculateTax, taxFreeThreshold, if_pos h]
    rw [runBands_nonpos _ _ (by linarith)]
  · simp only [calculateTax, taxFreeThreshold, if_neg h]
    rw [max_eq_left (by linarith)]

theorem legacyTaxable_mono {i1 i2 : ℚ} (h : i1 ≤ i2) :
    max (i1 - (max 200000 (i1 * (1/100)) + i1 * (20/100))) 0
      ≤ max (i2 - (max 200000 (i2 * (1/100)) + i2 * (20/100))) 0 := by
  apply max_le_max _ le_rfl
  rcases le_total (i1 * (1/100)) 200000 with h1 | h1 <;>
    rcases le_total (i2 * (1/100)) 200000 with h2 | h2
  · rw [max_eq_left h1, max_eq_left h2]; linarith
  · rw [max_eq_left h1, max_eq_right h2]; linarith
  · rw [max_eq_right h1, max_eq_left h2]; linarith
  · rw [max_eq_right h1, max_eq_right h2]; linarith

theorem calculateTax_tax_mono (year : TaxYear) {i1 i2 : ℚ} (h : i1 ≤ i2) :
    (calculateTax i1 year).tax ≤ (calculateTax i2 year).tax := by
  cases year with
  | y2025 =>
      exact runBands_fst_mono bands2025 bands2025_good _ _ (legacyTaxable_mono h)
  | y2026 =>
      rw [calculateTax_y2026_tax, calculateTax_y2026_tax]
      exact runBands_fst_mono bands2026 bands2026_good _ _ (by linarith)

/-- C1: under the LEGACY (2025) regime, `calculateTax` computes
`relief = max(200000, income × 0.01) + income × 0.20` and
`taxableIncome = max(income − relief, 0)` and returns exactly these
values in its result. -/
theorem claim_C1 : ∀ income : ℚ,
    (calculateTax income TaxYear.y2025).relief
      = max 200000 (income * (1/100)) + income * (20/100)
  ∧ (calculateTax income TaxYear.y2025).taxableIncome
      = max (income - (max 200000 (income * (1/100)) + income * (20/100))) 0 := by
  intro income
  exact ⟨rfl, rfl⟩

/-- C2: under the LEGACY (2025) regime the tax equals the closed-form
consumption of the fixed ordered band table (widths 300k, 300k, 500k,
500k, 1.6M, unbounded at 7%, 11%, 15%, 19%, 21%, 24%), the tax is the
sum of the breakdown lines' band taxes, and every emitted breakdown
line is a band line `{consumed, rate, consumed × rate}` with strictly
positive consumed width (no zero-width trailing lines). -/
theorem claim_C2 : ∀ income : ℚ,
    (calculateTax income TaxYear.y2025).tax
      = legacyTaxClosed ((calculateTax income TaxYear.y2025).taxableIncome)
  ∧ (calculateTax income TaxYear.y2025).tax
      = (((calculateTax income TaxYear.y2025).breakdown).map lineTax).sum
  ∧ ∀ line ∈ (calculateTax income TaxYear.y2025).breakdown,
      ∃ a r, line = BLine.band a r (a * r) ∧ 0 < a := by
  intro income
  refine ⟨runBands2025_fst_closed _, runBands_fst_eq_sum bands2025 _, ?_⟩
  exact runBands_snd_bands bands2025 bands2025_good _

/-- C3: under the REFORM (2026) regime the taxable base is
`max(income − 800000, 0)` and the tax is the closed-form consumption of
the reform band table (widths 2.2M, 9M, 13M, 25M, unbounded at 15%,
18%, 21%, 23%, 25%) applied to that base; in particular an income of
800,001 with no rent yields tax exactly 0.15 with taxable base 1. -/
theorem claim_C3 :
    (∀ income : ℚ,
        (calculateTax income TaxYear.y2026).taxableIncome = max (income - 800000) 0
      ∧ (calculateTax income TaxYear.y2026).tax = reformTaxClosed (max (income - 800000) 0))
  ∧ (calculatorPageResult 800001 TaxYear.y2026 UserType.salary CryptoTaxMethod.pit 0).tax
      = 15/100
  ∧ (calculatorPageResult 800001 TaxYear.y2026 UserType.salary CryptoTaxMethod.pit 0).taxableIncome
      = 1 := by
  refine ⟨?_, ?_, ?_⟩
  · intro income
    by_cases h : income ≤ 800000
    · have hmax : max (income - 800000) 0 = 0 := max_eq_right (by linarith)
      constructor
      · simp only [calculateTax, taxFreeThreshold, if_pos h, hmax]
      · simp only [calculateTax, taxFreeThreshold, if_pos h, hmax]
        norm_num [reformTaxClosed, slicePortion]
    · constructor
      · simp only [calculateTax, taxFreeThreshold, if_neg h]
      · simp only [calculateTax, taxFreeThreshold, if_neg h]
        exact runBands2026_fst_closed _
  · norm_num [calculatorPageResult, calculateTax, rentReliefFor, isCryptoCGT,
      taxFreeThreshold, runBands, bands2026, bandAmount]
  · norm_num [calculatorPageResult, calculateTax, rentReliefFor, isCryptoCGT,
      taxFreeThreshold, runBands, bands2026, bandAmount]

/-- C4 counterexample: at raw income 1,000,000 (strictly above the
800,000 threshold) with rent 3,000,000, the engine nevertheless
short-circuits with the single below-threshold line for the net income
500,000 — so the threshold check is made against income net of rent
relief, not against raw income as the claim states. -/
theorem claim_C4_counterexample :
    (800000:ℚ) < 1000000
  ∧ calculatorPageResult 1000000 TaxYear.y2026 UserType.salary CryptoTaxMethod.pit 3000000
      = ⟨0, 0, 0, [BLine.belowThreshold 500000]⟩ := by
  refine ⟨by norm_num, ?_⟩
  norm_num [calculatorPageResult, calculateTax, rentReliefFor, isCryptoCGT,
    taxFreeThreshold, runBands, bands2026, bandAmount]

/-- C4 (amended): under the REFORM (2026) regime the 800,000 threshold
check is made against income net of rent relief (the value passed to
the engine): whenever `max(income − rentRelief, 0) ≤ 800000` the engine
short-circuits with tax 0, taxableIncome 0 and a single below-threshold
breakdown line, skipping banding entirely. -/
theorem claim_C4_amended : ∀ (income rent : ℚ) (u : UserType) (m : CryptoTaxMethod),
    max (income - rentReliefFor TaxYear.y2026 rent) 0 ≤ 800000 →
    calculatorPageResult income TaxYear.y2026 u m rent
      = ⟨0, 0, 0,
          [BLine.belowThreshold (max (income - rentReliefFor TaxYear.y2026 rent) 0)]⟩ := by
  intro income rent u m hle
  cases hc : isCryptoCGT u m <;>
    simp only [calculatorPageResult, hc] <;>
    simp only [calculateTax, taxFreeThreshold, if_pos hle]

/-- C4 witness: income 1,000,000 with rent 3,000,000 has net income
500,000 ≤ 800,000 and the engine returns the short-circuit result. -/
theorem claim_C4_witness :
    max ((1000000:ℚ) - rentReliefFor TaxYear.y2026 3000000) 0 ≤ 800000
  ∧ calculatorPageResult 1000000 TaxYear.y2026 UserType.freelancer CryptoTaxMethod.pit 3000000
      = ⟨0, 0, 0,
          [BLine.belowThreshold (max ((1000000:ℚ) - rentReliefFor TaxYear.y2026 3000000) 0)]⟩ := by
  have h : max ((1000000:ℚ) - rentReliefFor TaxYear.y2026 3000000) 0 ≤ 800000 := by
    norm_num [rentReliefFor]
  exact ⟨h, claim_C4_amended 1000000 3000000 UserType.freelancer CryptoTaxMethod.pit h⟩

/-- C5: under LEGACY (2025) with the CAPITAL_GAINS crypto method the
result is exactly tax = income × 0.10, relief 0, taxableIncome = income
and a single flat-computation breakdown line, for every income ≥ 0 and
any rent. -/
theorem claim_C5 : ∀ income rent : ℚ, 0 ≤ income →
    calculatorPageResult income TaxYear.y2025 UserType.crypto CryptoTaxMethod.cgt rent
      = ⟨income * (10/100), 0, income,
          [BLine.flatCgt income (income * (10/100))]⟩ := by
  intro income rent _
  rfl

/-- C5 witness: income 5,000,000 under LEGACY flat CGT yields tax
exactly 500,000. -/
theorem claim_C5_witness :
    (0:ℚ) ≤ 5000000
  ∧ calculatorPageResult 5000000 TaxYear.y2025 UserType.crypto CryptoTaxMethod.cgt 0
      = ⟨500000, 0, 5000000, [BLine.flatCgt 5000000 500000]⟩ := by
  refine ⟨by norm_num, ?_⟩
  rw [claim_C5 5000000 0 (by norm_num)]
  norm_num

/-- C6: under the REFORM (2026) regime, choosing the CAPITAL_GAINS
crypto method produces exactly the same result as choosing
PERSONAL_INCOME, for every income and rent. -/
theorem claim_C6 : ∀ income rent : ℚ,
    calculatorPageResult income TaxYear.y2026 UserType.crypto CryptoTaxMethod.cgt rent
      = calculatorPageResult income TaxYear.y2026 UserType.crypto CryptoTaxMethod.pit rent := by
  intro income rent
  rfl

/-- C7: under the REFORM (2026) regime the rent relief equals
`min(rent × 0.20, 500000)` and never exceeds 500,000, and rent
3,000,000 and rent 10,000,000 yield identical taxableIncome for every
fixed income (and any user type / crypto method). -/
theorem claim_C7 :
    (∀ rent : ℚ,
        rentReliefFor TaxYear.y2026 rent = min (rent * (20/100)) 500000
      ∧ rentReliefFor TaxYear.y2026 rent ≤ 500000)
  ∧ ∀ (income : ℚ) (u : UserType) (m : CryptoTaxMethod),
      (calculatorPageResult income TaxYear.y2026 u m 3000000).taxableIncome
        = (calculatorPageResult income TaxYear.y2026 u m 10000000).taxableIncome := by
  constructor
  · intro rent
    exact ⟨rfl, min_le_right _ _⟩
  · intro income u m
    have h3 : rentReliefFor TaxYear.y2026 3000000 = 500000 := by
      norm_num [rentReliefFor]
    have h10 : rentReliefFor TaxYear.y2026 10000000 = 500000 := by
      norm_num [rentReliefFor]
    simp only [calculatorPageResult, h3, h10]

/-- C8: for a fixed regime, user type, crypto method and rent, the
computed tax is monotonically non-decreasing in income. -/
theorem claim_C8 : ∀ (year : TaxYear) (u : UserType) (m : CryptoTaxMethod)
    (rent i1 i2 : ℚ), i1 < i2 →
    (calculatorPageResult i1 year u m rent).tax
      ≤ (calculatorPageResult i2 year u m rent).tax := by
  intro year u m rent i1 i2 hlt
  have h : i1 ≤ i2 := le_of_lt hlt
  have hnet : max (i1 - rentReliefFor year rent) 0 ≤ max (i2 - rentReliefFor year rent) 0 :=
    max_le_max (by linarith) le_rfl
  cases hc : isCryptoCGT u m <;> cases year <;>
    simp only [calculatorPageResult, hc] <;>
    first
      | exact calculateTax_tax_mono _ hnet
      | linarith

/-- C8 witness: a concrete monotone pair under LEGACY. -/
theorem claim_C8_witness :
    (0:ℚ) < 1000000
  ∧ (calculatorPageResult 0 TaxYear.y2025 UserType.salary CryptoTaxMethod.pit 0).tax
      ≤ (calculatorPageResult 1000000 TaxYear.y2025 UserType.salary CryptoTaxMethod.pit 0).tax :=
  ⟨by norm_num,
    claim_C8 TaxYear.y2025 UserType.salary CryptoTaxMethod.pit 0 0 1000000 (by norm_num)⟩

/-- C9 counterexample: the engine does not reject negative inputs.  A
negative income of −100 under LEGACY yields an ordinary result (tax 0,
relief 199,980, taxableIncome silently clamped to 0), and a negative
rent of −1,000,000 under REFORM yields a negative rent relief that
increases the tax to 60,000 instead of raising any error. -/
theorem claim_C9_counterexample :
    calculateTax (-100) TaxYear.y2025 = ⟨0, 199980, 0, []⟩
  ∧ (calculatorPageResult 1000000 TaxYear.y2026 UserType.salary CryptoTaxMethod.pit
        (-1000000)).tax = 60000 := by
  constructor
  · norm_num [calculateTax, runBands, bands2025, bandAmount]
  · norm_num [calculatorPageResult, calculateTax, rentReliefFor, isCryptoCGT,
      taxFreeThreshold, runBands, bands2026, bandAmount]

/-- C9 (amended): negative income and negative rent are not rejected —
the engine is a total function and computes normally.  Every negative
income yields tax 0 and taxableIncome 0 under LEGACY (via the
floor-at-zero clamp) and the below-threshold result under REFORM. -/
theorem claim_C9_amended : ∀ income : ℚ, income < 0 →
    (calculateTax income TaxYear.y2025).tax = 0
  ∧ (calculateTax income TaxYear.y2025).taxableIncome = 0
  ∧ calculateTax income TaxYear.y2026 = ⟨0, 0, 0, [BLine.belowThreshold income]⟩ := by
  intro income hneg
  have hrel : income - (max 200000 (income * (1/100)) + income * (20/100)) ≤ 0 := by
    have h200 : (200000:ℚ) ≤ max 200000 (income * (1/100)) := le_max_left _ _
    linarith
  have h25 : calculateTax income TaxYear.y2025
      = ⟨0, max 200000 (income * (1/100)) + income * (20/100), 0, []⟩ := by
    simp only [calculateTax]
    rw [max_eq_right hrel, runBands_nonpos _ _ le_rfl]
  refine ⟨?_, ?_, ?_⟩
  · rw [h25]
  · rw [h25]
  · simp only [calculateTax, taxFreeThreshold]
    rw [if_pos (show income ≤ (800000:ℚ) by linarith)]

/-- C9 amended witness: income −100 is negative and produces tax 0. -/
theorem claim_C9_witness :
    (-100:ℚ) < 0 ∧ (calculateTax (-100) TaxYear.y2025).tax = 0 :=
  ⟨by norm_num, (claim_C9_amended (-100) (by norm_num)).1⟩

/-- C10: under the REFORM (2026) regime, for every income strictly
above 800,000 the breakdown is the tax-free-threshold line followed by
exactly the consumed-band lines (each a positive-width band line), so
it has exactly one more line than the number of consumed bands. -/
theorem claim_C10 : ∀ income : ℚ, 800000 < income →
    (calculateTax income TaxYear.y2026).breakdown
      = BLine.thresholdLine 800000 :: (runBands bands2026 (income - 800000)).2
  ∧ (∀ line ∈ (runBands bands2026 (income - 800000)).2,
      ∃ a r, line = BLine.band a r (a * r) ∧ 0 < a)
  ∧ (calculateTax income TaxYear.y2026).breakdown.length
      = (runBands bands2026 (income - 800000)).2.length + 1 := by
  intro income h
  have hb : (calculateTax income TaxYear.y2026).breakdown
      = BLine.thresholdLine 800000 :: (runBands bands2026 (income - 800000)).2 := by
    simp only [calculateTax, taxFreeThreshold]
    rw [if_neg (show ¬ income ≤ (800000:ℚ) by linarith), max_eq_left (by linarith)]
  refine ⟨hb, runBands_snd_bands bands2026 bands2026_good _, ?_⟩
  rw [hb]
  simp

/-- C10 witness: income 1,000,000 yields the threshold line followed by
the consumed-band lines. -/
theorem claim_C10_witness :
    (800000:ℚ) < 1000000
  ∧ (calculateTax 1000000 TaxYear.y2026).breakdown
      = BLine.thresholdLine 800000 :: (runBands bands2026 (1000000 - 800000)).2 :=
  ⟨by norm_num, (claim_C10 1000000 (by norm_num)).1⟩
